import Mathlib

/-!
Verification development for the algo-intent repository.

The definitions below are a shallow embedding of the repository's secure
session and transaction-approval subsystem:

* `WalletManager.encrypt_data` / `WalletManager.decrypt_data` embed
  `src/wallet.py` (`_encrypt_data`, `_decrypt_data`); the external
  cryptographic primitives (PBKDF2, Fernet, base64) are parameters collected
  in `CryptoPrims`, while the salt-embedding and slicing logic of the source
  is modelled exactly.
* `validate_session`, `check_user_rate_limit`, `load_sessions` embed the
  session-store functions of `src/telegram_bot.py`; the JSON file becomes an
  association list, wall-clock datetimes become integer seconds.
* `handle_transaction_password`, `handle_conversation_state`,
  `handle_message`, `handle_opt_out`, `handle_send_transaction` embed the
  conversation state machine of `src/telegram_bot.py`; `context.user_data`
  becomes the `UserData` structure and the external collaborators (ledger
  client, wallet decryption outcome, intent parser) become the `Env`
  structure.
* `build_and_send_multi_transaction` embeds the grouped multi-recipient
  payment builder of `src/transaction_builder.py`; Python floats are
  modelled as exact rationals and Python `int()` as truncation (`pyInt`).
-/

namespace AlgoIntent

/-- Python `int()` applied to a rational: truncation toward zero. -/
def pyInt (q : ℚ) : ℤ := if 0 ≤ q then ⌊q⌋ else -⌊-q⌋

/-- Conversion of an ALGO amount to microALGO, `int(amount * 1_000_000)`
(`src/transaction_builder.py`). -/
def microalgos (amount : ℚ) : ℤ := pyInt (amount * 1000000)

/-- Security configuration constant `MAX_PASSWORD_ATTEMPTS` of
`src/telegram_bot.py`. -/
def MAX_PASSWORD_ATTEMPTS : Nat := 3

/-- Security configuration constant `SESSION_TIMEOUT_HOURS` of
`src/telegram_bot.py`. -/
def SESSION_TIMEOUT_HOURS : Int := 24

/-- Security configuration constant `MAX_TRANSACTIONS_PER_HOUR` of
`src/telegram_bot.py`. -/
def MAX_TRANSACTIONS_PER_HOUR : Nat := 10

/-- One hour in seconds; timestamps are modelled as integer seconds. -/
def ONE_HOUR : Int := 3600

theorem pyInt_intCast (k : ℤ) : pyInt (k : ℚ) = k := by
  unfold pyInt
  by_cases h : (0 : ℚ) ≤ (k : ℚ)
  · rw [if_pos h, Int.floor_intCast]
  · rw [if_neg h]
    have hk : -(k : ℚ) = ((-k : ℤ) : ℚ) := by push_cast; ring
    rw [hk, Int.floor_intCast, neg_neg]

/-- If an ALGO amount is an exact multiple of one microALGO then its
conversion is exact. -/
theorem microalgos_exact (a : ℚ) (k : ℤ) (h : a * 1000000 = (k : ℚ)) :
    microalgos a = k := by
  unfold microalgos
  rw [h, pyInt_intCast]

/-! ## SecretVault (`src/wallet.py`, `_encrypt_data` / `_decrypt_data`) -/

/-- Byte strings, modelled as lists of naturals. -/
abbrev Bytes := List Nat

/-- External cryptographic primitives used by `WalletManager._encrypt_data`
and `_decrypt_data`: PBKDF2-HMAC-SHA256 key derivation, url-safe base64 of
the derived key, the Fernet authenticated cipher, and the transport base64
of the final blob.  These live in the `cryptography` / `base64` libraries,
outside the repository; the repository's own logic (fresh 16-byte salt
prepended to the ciphertext, salt recovered by slicing on decrypt) is
modelled exactly in `WalletManager.encrypt_data` / `decrypt_data`. -/
structure CryptoPrims where
  kdfDerive : Bytes → Bytes → Bytes
  urlsafeB64 : Bytes → Bytes
  fernetEncrypt : Bytes → Bytes → Bytes
  fernetDecrypt : Bytes → Bytes → Option Bytes
  b64encode : Bytes → Bytes
  b64decode : Bytes → Option Bytes

namespace WalletManager

/-- Embedding of `WalletManager._encrypt_data`: derive a key from the
password and a fresh 16-byte salt, Fernet-encrypt the data, and return
`base64(salt ++ token)`.  The salt is a parameter because `os.urandom(16)`
is external randomness. -/
def encrypt_data (cp : CryptoPrims) (salt : Bytes) (data password : Bytes) :
    Bytes :=
  let key := cp.urlsafeB64 (cp.kdfDerive password salt)
  cp.b64encode (salt ++ cp.fernetEncrypt key data)

/-- Embedding of `WalletManager._decrypt_data`: base64-decode the blob,
split off the first 16 bytes as the salt, re-derive the key from the
password and that salt, and Fernet-decrypt the remainder.  `none` models
the `ValueError("Incorrect password or corrupted data")` raised on any
failure. -/
def decrypt_data (cp : CryptoPrims) (blob password : Bytes) : Option Bytes :=
  match cp.b64decode blob with
  | none => none
  | some decoded =>
    let salt := decoded.take 16
    let ct := decoded.drop 16
    let key := cp.urlsafeB64 (cp.kdfDerive password salt)
    cp.fernetDecrypt key ct

end WalletManager

/-! ## SessionStore (`src/telegram_bot.py`) -/

/-- One user's persisted session record (a JSON object in
`telegram_sessions.json`).  `last_activity` is optional because the code
guards it with `if 'last_activity' in user_session`. -/
structure SessionRecord where
  address : String := ""
  encrypted_mnemonic : String := ""
  last_activity : Option Int := none
  recent_transactions : List Int := []
  deriving DecidableEq

/-- The sessions mapping, keyed by stringified user id. -/
abbrev Sessions := List (String × SessionRecord)

/-- Dictionary lookup `sessions[user_key]` / `user_key in sessions`. -/
def findSession : Sessions → String → Option SessionRecord
  | [], _ => none
  | (k, v) :: rest, u => if k = u then some v else findSession rest u

/-- Dictionary update `sessions[user_key] = user_session`. -/
def setSession : Sessions → String → SessionRecord → Sessions
  | [], u, v => [(u, v)]
  | (k, w) :: rest, u, v =>
    if k = u then (u, v) :: rest else (k, w) :: setSession rest u v

/-- Dictionary deletion `del sessions[user_key]`.  A Python dict holds each
key once; on the association-list model deletion removes every binding of
the key. -/
def delSession (s : Sessions) (u : String) : Sessions :=
  s.filter (fun p => p.1 ≠ u)

theorem findSession_setSession_self (s : Sessions) (u : String)
    (v : SessionRecord) : findSession (setSession s u v) u = some v := by
  induction s with
  | nil => simp [setSession, findSession]
  | cons p rest ih =>
    obtain ⟨k, w⟩ := p
    by_cases h : k = u
    · simp [setSession, findSession, h]
    · simp [setSession, findSession, h, ih]

theorem findSession_delSession_self (s : Sessions) (u : String) :
    findSession (delSession s u) u = none := by
  induction s with
  | nil => simp [delSession, findSession]
  | cons p rest ih =>
    obtain ⟨k, w⟩ := p
    by_cases h : k = u
    · simpa [delSession, List.filter, h] using ih
    · simpa [delSession, List.filter, h, findSession] using ih

/-- Embedding of `validate_session` (`src/telegram_bot.py`, lines 150-174).
Returns the boolean result together with the sessions mapping as persisted
by `save_sessions`.  `now` is `datetime.now()` in seconds; the expiry bound
`timedelta(hours=SESSION_TIMEOUT_HOURS)` becomes
`SESSION_TIMEOUT_HOURS * ONE_HOUR` seconds. -/
def validate_session (now : Int) (sessions : Sessions) (user_key : String) :
    Bool × Sessions :=
  match findSession sessions user_key with
  | none => (false, sessions)
  | some user_session =>
    match user_session.last_activity with
    | some last_activity =>
      if now - last_activity > SESSION_TIMEOUT_HOURS * ONE_HOUR then
        (false, delSession sessions user_key)
      else
        (true, setSession sessions user_key
          { user_session with last_activity := some now })
    | none =>
      (true, setSession sessions user_key
        { user_session with last_activity := some now })

/-- Embedding of `check_user_rate_limit` (`src/telegram_bot.py`, lines
118-148).  Returns the boolean result together with the sessions mapping as
persisted (the refusal path and the non-transaction path never call
`save_sessions`, so they return the mapping unchanged). -/
def check_user_rate_limit (now : Int) (sessions : Sessions)
    (user_key : String) (action_type : String) : Bool × Sessions :=
  match findSession sessions user_key with
  | none => (true, sessions)
  | some user_session =>
    if action_type = "transaction" then
      let recent_transactions :=
        user_session.recent_transactions.filter
          (fun tx_time => tx_time > now - ONE_HOUR)
      if recent_transactions.length ≥ MAX_TRANSACTIONS_PER_HOUR then
        (false, sessions)
      else
        (true, setSession sessions user_key
          { user_session with
              recent_transactions := recent_transactions ++ [now] })
    else
      (true, sessions)

/-- Content of the sessions file on disk: either a well-formed JSON mapping
or malformed data that `json.load` rejects. -/
inductive FileContent where
  | valid (sessions : Sessions)
  | malformed (raw : String)
  deriving DecidableEq

/-- The slice of the filesystem that `load_sessions` touches: the sessions
file itself and the timestamped backups created for corrupted files. -/
structure SessionsFS where
  sessionsFile : Option FileContent := none
  backups : List (Int × FileContent) := []
  deriving DecidableEq

/-- Embedding of `load_sessions` (`src/telegram_bot.py`, lines 176-190):
a missing file yields an empty mapping; well-formed data is returned as-is;
malformed data is renamed to `telegram_sessions.json.backup.<timestamp>`
and an empty mapping is returned instead of an error. -/
def load_sessions (now : Int) (fs : SessionsFS) : Sessions × SessionsFS :=
  match fs.sessionsFile with
  | none => ([], fs)
  | some (.valid sessions) => (sessions, fs)
  | some (.malformed raw) =>
    ([], { sessionsFile := none,
           backups := (now, .malformed raw) :: fs.backups })

/-! ## ApprovalStateMachine (`src/telegram_bot.py`)

The conversation layer is modelled over `context.user_data` (`UserData`);
the external collaborators — the wallet store and its decryption outcome,
the ledger client, and the natural-language intent layer — are collected
in `Env`.  The durable session store is modelled separately above
(`validate_session`, `check_user_rate_limit`); inside the conversation
model their outcomes appear as the booleans `Env.session_valid` and
`Env.tx_rate_ok`. -/

/-- An unsigned algosdk transaction, restricted to the fields the handlers
read.  `index` is the asset id of asset transactions (`hasattr(txn,
'index')` holds exactly when it is `some`); `group` is the atomic group
identifier set by `assign_group_id`. -/
structure Txn where
  sender : String := ""
  receiver : String := ""
  amt : Int := 0
  index : Option Nat := none
  close_assets_to : Option String := none
  group : Option Nat := none
  deriving DecidableEq

/-- One multi-transfer recipient, `{"address": ..., "amount": ...}`;
Python float amounts are modelled as exact rationals. -/
structure Recipient where
  address : String
  amount : ℚ
  deriving DecidableEq

/-- The per-user conversation dictionary `context.user_data`.  Absent keys
are the default field values (`dict.get` with its default). -/
structure UserData where
  state : Option String := none
  pending_txn : Option Txn := none
  pending_txns : Option (List Txn) := none
  transaction_type : Option String := none
  asset_id : Option Nat := none
  recipients : List Recipient := []
  failed_attempts : Nat := 0
  mnemonic : Option String := none
  deriving DecidableEq

/-- `context.user_data.clear()`. -/
def UserData.clear : UserData := {}

/-- Structured operation request produced by the external intent layer
(`AIIntentParser` plus the regex fallbacks); only the intents the claims
exercise are represented, everything else is `unsupported`. -/
inductive Intent where
  | create_wallet
  | connect_wallet
  | send_algo (amount : ℚ) (recipient : String)
  | opt_in (asset_id : Option Nat)
  | opt_out (asset_id : Option Nat)
  | unsupported
  deriving DecidableEq

/-- Ledger errors raised by `send_transaction(s)`, distinguished by the
substring matching on `str(e)` in the `except` clause of
`handle_transaction_password`. -/
inductive SubmitError where
  | alreadyInLedger
  | mustOptin
  | cannotCloseAllocating
  | assetDoesNotExist
  | other
  deriving DecidableEq

/-- External collaborators of the conversation layer.  `correct_password`
realises the `SecretVault` contract: `sign_transaction` succeeds exactly
when the supplied password decrypts the stored `encrypted_mnemonic`
(`WalletManager.decrypt_data`); any other password raises, which lands in
the handler's `except` clause.  `holdings` is the caller account's asset
map from `algod_client.account_info` (the bounded read-retry loop of the
opt-out branch collapses under a time-invariant environment); `opted_in`
is the recipient-side opt-in check; `submit_error` injects a ledger error
on submission; `confirmed_asset_id` is `get_asset_id_from_txid` (`none`
models a lookup failure).  `session_valid` is the state of the durable
session store for this user: the `validate_session` outcome consulted at
staging time and, equally, whether `sessions[str(user_id)]` exists at
resume time (line 813 of `handle_transaction_password`, which raises
`KeyError` when the record is absent) — the environment is time-invariant,
so one flag describes both reads. -/
structure Env where
  correct_password : String
  holdings : Nat → Option Nat := fun _ => none
  opted_in : String → Nat → Bool := fun _ _ => true
  submit_error : Option SubmitError := none
  confirmed_asset_id : Option Nat := some 1
  parse_intent : String → Option Intent := fun _ => none
  session_valid : Bool := true
  tx_rate_ok : Bool := true
  address : String := "SENDER"
  wallet_store_ok : Bool := true
  balance : ℚ := 1000000
  sdk_valid_address : String → Bool := fun _ => true
  create_wallet_ok : Bool := true
  connect_wallet_ok : Bool := true

/-- User-visible outcome of one handler invocation (the `reply_text`
calls, keyed by which message is sent). -/
inductive BotReply where
  | invalidInput
  | noPendingTransaction
  | optInSuccess (asset_id : Option Nat)
  | optOutSuccess (asset_id : Option Nat)
  | notOptedInto (asset_id : Option Nat)
  | optOutNonzeroBalance (amount : Nat)
  | multiSendSuccess (n : Nat)
  | dontOwnNft (asset_id : Option Nat)
  | recipientMustOptIn (asset_id : Option Nat)
  | nftTransferSuccess (asset_id : Option Nat)
  | nftMultiSuccess (asset_id : Option Nat)
  | nftCreated (asset_id : Option Nat)
  | alreadyCompleted
  | recipientNotOptedInErr (asset_id : Option Nat)
  | cannotOptOutErr (asset_id : Option Nat)
  | assetDoesNotExistErr (asset_id : Option Nat)
  | incorrectPassword (remaining : Nat)
  | tooManyAttemptsReset
  | tooManyAttemptsGate
  | invalidState
  | walletNotConnected
  | rateLimited
  | invalidRecipient
  | invalidAmount
  | invalidAssetId
  | transactionFailed
  | optInFailed
  | optOutFailed
  | passwordRequested (kind : String)
  | notUnderstood
  | unsupportedAction
  | askCreatePassword
  | askMnemonic
  | passwordTooShort
  | passwordNeedsLettersDigits
  | walletCreated
  | walletCreationFailed
  | invalidMnemonic
  | askConnectPassword
  | walletConnected
  | walletConnectionFailed
  deriving DecidableEq

/-- Result of one handler invocation: the user dictionary afterwards, the
reply, and the payloads actually submitted to the ledger during the call. -/
structure StepResult where
  user_data : UserData
  reply : BotReply
  submitted : List Txn := []
  deriving DecidableEq

/-- Python truthiness of an optional integer: `not asset_id` holds both for
`None` and for `0`. -/
def truthyOptNat : Option Nat → Bool
  | none => false
  | some n => n ≠ 0

/-- The `except` clause of `handle_transaction_password` (lines 963-987).
When it runs, `context.user_data` has already been cleared at line 809, so
`ud` is the cleared dictionary; in particular
`context.user_data.get('failed_attempts', 0)` reads from it.  `already`
records payloads submitted before the exception was raised. -/
def transaction_password_except (ud : UserData) (asset_id : Option Nat)
    (e : SubmitError) (already : List Txn) : StepResult :=
  match e with
  | .alreadyInLedger =>
    { user_data := ud, reply := .alreadyCompleted, submitted := already }
  | .mustOptin =>
    { user_data := ud, reply := .recipientNotOptedInErr asset_id,
      submitted := already }
  | .cannotCloseAllocating =>
    { user_data := ud, reply := .cannotOptOutErr asset_id,
      submitted := already }
  | .assetDoesNotExist =>
    { user_data := ud, reply := .assetDoesNotExistErr asset_id,
      submitted := already }
  | .other =>
    let failed_attempts := ud.failed_attempts + 1
    if failed_attempts ≥ MAX_PASSWORD_ATTEMPTS then
      { user_data := UserData.clear, reply := .tooManyAttemptsReset,
        submitted := already }
    else
      { user_data := { ud with failed_attempts := failed_attempts },
        reply := .incorrectPassword (MAX_PASSWORD_ATTEMPTS - failed_attempts),
        submitted := already }

/-- The asset-id extraction of `handle_transaction_password` (lines
796-801): fall back to `pending_txn.index` when the context holds no
truthy `asset_id` and the staged transaction carries an `index`
attribute. -/
def extracted_asset_id (ud : UserData) : Option Nat :=
  if ¬ truthyOptNat ud.asset_id then
    match ud.pending_txn with
    | some t => if t.index.isSome then t.index else ud.asset_id
    | none => ud.asset_id
  else ud.asset_id

/-- Signing and submission of one staged payload — the tail shared by the
opt-in, opt-out, NFT and payment branches of `handle_transaction_password`:
`sign_transaction` raises unless the password is the correct one, then
`send_transaction` may raise a ledger error; `success` builds the reply
once the payload is on the ledger. -/
def sign_submit_single (env : Env) (password : String)
    (asset_id : Option Nat) (pending_txn : Option Txn)
    (success : Txn → StepResult) : StepResult :=
  match pending_txn with
  | none => transaction_password_except UserData.clear asset_id .other []
  | some t =>
    if password = env.correct_password then
      match env.submit_error with
      | some e => transaction_password_except UserData.clear asset_id e []
      | none => success t
    else transaction_password_except UserData.clear asset_id .other []

/-- Signing and submission of a staged group — the tail shared by the
`multi_send` and `nft_multi_transfer` branches: every member is signed,
then the group goes to `send_transactions` as one unit. -/
def sign_submit_group (env : Env) (password : String)
    (asset_id : Option Nat) (pending_txns : Option (List Txn))
    (success : List Txn → StepResult) : StepResult :=
  match pending_txns with
  | none => transaction_password_except UserData.clear asset_id .other []
  | some txns =>
    if password = env.correct_password then
      match env.submit_error with
      | some e => transaction_password_except UserData.clear asset_id e []
      | none => success txns
    else transaction_password_except UserData.clear asset_id .other []

/-- Embedding of `handle_transaction_password` (`src/telegram_bot.py`,
lines 784-987).  The handler extracts the staged data, replies
`noPendingTransaction` when nothing is pending, clears `context.user_data`
at line 809 — before any signing — looks the caller up in the durable
session store (line 813, a `KeyError` landing in the `except` clause when
the record is absent), and then branches on the transaction type.  A wrong
password makes `sign_transaction` raise, landing in
`transaction_password_except` with the already-cleared dictionary.  The
default `send` branch never reaches a success reply: its `reply_text` call
(lines 956-961) passes a stray second positional argument and raises
`TypeError` after `send_transaction`, so the branch always ends in the
`except` clause with the payload already submitted. -/
def handle_transaction_password (env : Env) (ud : UserData)
    (password : String) : StepResult :=
  let transaction_type := ud.transaction_type.getD "send"
  let asset_id := extracted_asset_id ud
  if ud.pending_txn = none ∧ ud.pending_txns = none then
    { user_data := UserData.clear, reply := .noPendingTransaction }
  else if ¬ env.session_valid then
    transaction_password_except UserData.clear asset_id .other []
  else if transaction_type = "opt_in" then
    sign_submit_single env password asset_id ud.pending_txn (fun t =>
      { user_data := UserData.clear, reply := .optInSuccess asset_id,
        submitted := [t] })
  else if transaction_type = "opt_out" then
    match
      match asset_id with
      | none => none
      | some a => env.holdings a
    with
    | none =>
      { user_data := UserData.clear, reply := .notOptedInto asset_id }
    | some amount =>
      if amount > 0 then
        { user_data := UserData.clear,
          reply := .optOutNonzeroBalance amount }
      else
        sign_submit_single env password asset_id ud.pending_txn (fun t =>
          { user_data := UserData.clear, reply := .optOutSuccess asset_id,
            submitted := [t] })
  else if transaction_type = "multi_send" then
    sign_submit_group env password asset_id ud.pending_txns (fun txns =>
      { user_data := UserData.clear,
        reply := .multiSendSuccess ud.recipients.length,
        submitted := txns })
  else if transaction_type = "nft_transfer" then
    let owns_nft : Bool :=
      match asset_id with
      | none => false
      | some a =>
        match env.holdings a with
        | some amount => decide (amount > 0)
        | none => false
    if ¬ owns_nft then
      { user_data := UserData.clear, reply := .dontOwnNft asset_id }
    else
      match ud.pending_txn with
      | none =>
        transaction_password_except UserData.clear asset_id .other []
      | some t =>
        let recipient_opted_in : Bool :=
          match asset_id with
          | none => false
          | some a => env.opted_in t.receiver a
        if ¬ recipient_opted_in then
          { user_data := UserData.clear,
            reply := .recipientMustOptIn asset_id }
        else
          sign_submit_single env password asset_id (some t) (fun t2 =>
            { user_data := UserData.clear,
              reply := .nftTransferSuccess asset_id, submitted := [t2] })
  else if transaction_type = "nft_multi_transfer" then
    sign_submit_group env password asset_id ud.pending_txns (fun txns =>
      { user_data := UserData.clear, reply := .nftMultiSuccess asset_id,
        submitted := txns })
  else if transaction_type = "nft" then
    sign_submit_single env password asset_id ud.pending_txn (fun t =>
      match env.confirmed_asset_id with
      | some a =>
        { user_data := UserData.clear, reply := .nftCreated (some a),
          submitted := [t] }
      | none =>
        transaction_password_except UserData.clear asset_id .other [t])
  else
    sign_submit_single env password asset_id ud.pending_txn (fun t =>
      transaction_password_except UserData.clear asset_id .other [t])

/-- Embedding of `handle_wallet_creation_password` (lines 527-588).  The
strength checks mirror the source; the wallet-creation call is external
(`create_wallet`), its outcome is `Env.create_wallet_ok`, and both the
success and the failure path clear the dictionary. -/
def handle_wallet_creation_password (env : Env) (ud : UserData)
    (password : String) : StepResult :=
  if password.length < 8 then
    { user_data := ud, reply := .passwordTooShort }
  else if ¬ (password.toList.any Char.isAlpha) ∨
          ¬ (password.toList.any Char.isDigit) then
    { user_data := ud, reply := .passwordNeedsLettersDigits }
  else if env.create_wallet_ok then
    { user_data := UserData.clear, reply := .walletCreated }
  else
    { user_data := UserData.clear, reply := .walletCreationFailed }

/-- Python `mnemonic.strip().split()`. -/
def pySplitWords (s : String) : List String :=
  (s.splitOn " ").filter (fun w => w ≠ "")

/-- Embedding of `handle_mnemonic_input` (lines 590-606). -/
def handle_mnemonic_input (ud : UserData) (mnemonic : String) : StepResult :=
  if (pySplitWords mnemonic).length ≠ 25 then
    { user_data := ud, reply := .invalidMnemonic }
  else
    { user_data :=
        { ud with mnemonic := some mnemonic,
                  state := some "connecting_password" },
      reply := .askConnectPassword }

/-- Embedding of `handle_connection_password` (lines 608-640); the
`connect_wallet` call is external, its outcome is `Env.connect_wallet_ok`,
and both paths clear the dictionary. -/
def handle_connection_password (env : Env) (_ud : UserData) : StepResult :=
  if env.connect_wallet_ok then
    { user_data := UserData.clear, reply := .walletConnected }
  else
    { user_data := UserData.clear, reply := .walletConnectionFailed }

/-- Embedding of `handle_conversation_state` (lines 494-525): empty input
check, the `failed_attempts ≥ MAX_PASSWORD_ATTEMPTS` gate (which clears the
dictionary), then dispatch on `state`. -/
def handle_conversation_state (env : Env) (ud : UserData)
    (message_text : String) : StepResult :=
  if message_text = "" then
    { user_data := ud, reply := .invalidInput }
  else if ud.failed_attempts ≥ MAX_PASSWORD_ATTEMPTS then
    { user_data := UserData.clear, reply := .tooManyAttemptsGate }
  else
    match ud.state with
    | some "creating_wallet" => handle_wallet_creation_password env ud message_text
    | some "connecting_wallet" => handle_mnemonic_input ud message_text
    | some "connecting_password" => handle_connection_password env ud
    | some "transaction_password" => handle_transaction_password env ud message_text
    | _ => { user_data := UserData.clear, reply := .invalidState }

/-- Embedding of `validate_algorand_address` (lines 103-116): length 58
and the base32 character class `[A-Z2-7]`. -/
def validate_algorand_address (address : String) : Bool :=
  address.length = 58 &&
  address.toList.all
    (fun c => ("ABCDEFGHIJKLMNOPQRSTUVWXYZ234567".toList).contains c)

/-- Embedding of `handle_send_transaction` (lines 642-706) composed with
the telegram path of `build_and_send_transaction`
(`src/transaction_builder.py`): session check, transaction rate limit,
address and amount validation, then the builder's own algosdk address
check and balance check; on success the unsigned `PaymentTxn` is staged
and the password requested. -/
def handle_send_transaction (env : Env) (ud : UserData) (amount : ℚ)
    (recipient : String) : StepResult :=
  if ¬ env.session_valid then
    { user_data := ud, reply := .walletNotConnected }
  else if ¬ env.tx_rate_ok then
    { user_data := ud, reply := .rateLimited }
  else if ¬ validate_algorand_address recipient then
    { user_data := ud, reply := .invalidRecipient }
  else if amount ≤ 0 ∨ amount > 1000000 then
    { user_data := ud, reply := .invalidAmount }
  else if ¬ env.sdk_valid_address recipient ∨ ¬ env.wallet_store_ok ∨
          env.balance < amount then
    { user_data := ud, reply := .transactionFailed }
  else
    let t : Txn :=
      { sender := env.address, receiver := recipient,
        amt := microalgos amount }
    { user_data :=
        { ud with pending_txn := some t,
                  state := some "transaction_password",
                  transaction_type := some "send" },
      reply := .passwordRequested "send" }

/-- Embedding of `handle_opt_in` (lines 1386-1420) composed with the
telegram path of `opt_in_to_asset`: the zero-amount self-transfer is
staged and the password requested.  `asset_id = none` models
`int(params['asset_id'])` failing. -/
def handle_opt_in (env : Env) (ud : UserData) (asset_id : Option Nat) :
    StepResult :=
  if ¬ env.session_valid then
    { user_data := ud, reply := .walletNotConnected }
  else
    match asset_id with
    | none => { user_data := ud, reply := .invalidAssetId }
    | some a =>
      if ¬ env.wallet_store_ok then
        { user_data := ud, reply := .optInFailed }
      else
        let t : Txn :=
          { sender := env.address, receiver := env.address, amt := 0,
            index := some a }
        { user_data :=
            { ud with pending_txn := some t,
                      state := some "transaction_password",
                      transaction_type := some "opt_in" },
          reply := .passwordRequested "opt_in" }

/-- Embedding of `handle_opt_out` (lines 1422-1456) composed with the
telegram path of `opt_out_of_asset` (`src/transaction_builder.py`, lines
292-313): the closing zero-amount self-transfer is built and staged and
the password requested.  Neither function reads the account's holdings;
the balance re-check lives in `handle_transaction_password`. -/
def handle_opt_out (env : Env) (ud : UserData) (asset_id : Option Nat) :
    StepResult :=
  if ¬ env.session_valid then
    { user_data := ud, reply := .walletNotConnected }
  else
    match asset_id with
    | none => { user_data := ud, reply := .invalidAssetId }
    | some a =>
      if ¬ env.wallet_store_ok then
        { user_data := ud, reply := .optOutFailed }
      else
        let t : Txn :=
          { sender := env.address, receiver := env.address, amt := 0,
            index := some a, close_assets_to := some env.address }
        { user_data :=
            { ud with pending_txn := some t,
                      state := some "transaction_password",
                      transaction_type := some "opt_out" },
          reply := .passwordRequested "opt_out" }

/-- Embedding of `handle_message` (lines 401-492), restricted to the
intents the claims exercise.  The general rate-limit call
`check_user_rate_limit(user_id)` always allows and never writes — see the
non-transaction case of `check_user_rate_limit` above — so it introduces no
branch here; the conversation-state check precedes intent parsing as in
the source. -/
def handle_message (env : Env) (ud : UserData) (user_input : String) :
    StepResult :=
  if user_input = "" then
    { user_data := ud, reply := .invalidInput }
  else if ud.state.isSome then
    handle_conversation_state env ud user_input
  else
    match env.parse_intent user_input with
    | none => { user_data := ud, reply := .notUnderstood }
    | some .create_wallet =>
      { user_data := { ud with state := some "creating_wallet" },
        reply := .askCreatePassword }
    | some .connect_wallet =>
      { user_data := { ud with state := some "connecting_wallet" },
        reply := .askMnemonic }
    | some (.send_algo amount recipient) =>
      handle_send_transaction env ud amount recipient
    | some (.opt_in a) => handle_opt_in env ud a
    | some (.opt_out a) => handle_opt_out env ud a
    | some .unsupported =>
      { user_data := ud, reply := .unsupportedAction }

/-! ## Multi-recipient builder (`src/transaction_builder.py`) -/

/-- Embedding of algosdk `assign_group_id`: the group identifier itself is
an externally computed hash of the group, taken here as the parameter
`gid`; the function stamps it on every transaction of the group. -/
def assign_group_id (gid : Nat) (txns : List Txn) : List Txn :=
  txns.map (fun t => { t with group := some gid })

/-- Result of `build_and_send_multi_transaction` on the telegram path. -/
inductive MultiResult where
  | error (msg : String)
  | awaiting_approval (unsigned_txns : List Txn)
      (recipients : List Recipient) (total_amount : ℚ)
  deriving DecidableEq

/-- The sequential per-recipient validation loop of
`build_and_send_multi_transaction` (lines 76-80); returns the first error
message, if any. -/
def validateRecipients (sdk_valid : String → Bool) :
    Nat → List Recipient → Option String
  | _, [] => none
  | i, r :: rs =>
    if ¬ sdk_valid r.address then
      some ("Invalid recipient address #" ++ toString (i + 1))
    else if r.amount ≤ 0 then
      some ("Invalid amount for recipient #" ++ toString (i + 1))
    else validateRecipients sdk_valid (i + 1) rs

/-- Embedding of `build_and_send_multi_transaction`
(`src/transaction_builder.py`, lines 67-115), telegram path: size check,
per-recipient validation, balance check against the summed total, one
unsigned `PaymentTxn` per recipient with `int(amount * 1_000_000)`
microALGO, then `assign_group_id` over the whole list. -/
def build_and_send_multi_transaction (sdk_valid : String → Bool)
    (balance : ℚ) (gid : Nat) (sender : String)
    (recipients : List Recipient) : MultiResult :=
  if recipients.length < 2 then
    .error "Multi-recipient transfer requires at least 2 recipients."
  else
    match validateRecipients sdk_valid 0 recipients with
    | some msg => .error msg
    | none =>
      let total_amount := (recipients.map Recipient.amount).sum
      if balance < total_amount then .error "Insufficient balance."
      else
        let unsigned_txns := recipients.map (fun r =>
          ({ sender := sender, receiver := r.address,
             amt := microalgos r.amount } : Txn))
        let grouped_txns := assign_group_id gid unsigned_txns
        .awaiting_approval grouped_txns recipients total_amount

/-! ## Theorems -/

/-- C4: encryption round-trip — for every secret phrase and password,
decrypting the blob produced by `WalletManager.encrypt_data` with the same
password returns the secret; the blob embeds the 16-byte salt, so
decryption needs only the blob and the password.  The hypotheses are the
contracts of the external primitives: transport base64 is invertible and
the Fernet cipher decrypts its own ciphertext under the same key. -/
theorem encrypt_decrypt_roundtrip (cp : CryptoPrims)
    (salt data password : Bytes) (hsalt : salt.length = 16)
    (hb64 : ∀ x, cp.b64decode (cp.b64encode x) = some x)
    (hfernet : ∀ k m, cp.fernetDecrypt k (cp.fernetEncrypt k m) = some m) :
    WalletManager.decrypt_data cp
      (WalletManager.encrypt_data cp salt data password) password =
      some data := by
  unfold WalletManager.encrypt_data WalletManager.decrypt_data
  rw [hb64]
  have htake :
      (salt ++ cp.fernetEncrypt
        (cp.urlsafeB64 (cp.kdfDerive password salt)) data).take 16 = salt := by
    rw [← hsalt]
    exact List.take_left _ _
  have hdrop :
      (salt ++ cp.fernetEncrypt
        (cp.urlsafeB64 (cp.kdfDerive password salt)) data).drop 16 =
      cp.fernetEncrypt (cp.urlsafeB64 (cp.kdfDerive password salt)) data := by
    rw [← hsalt]
    exact List.drop_left _ _
  simp only [htake, hdrop, hfernet]

/-- Concrete instantiation of the external primitives for witnesses: the
derived key is `password ++ salt`, the cipher prepends the key, base64 is
the identity transport. -/
def demoCrypto : CryptoPrims where
  kdfDerive := fun password salt => password ++ salt
  urlsafeB64 := fun k => k
  fernetEncrypt := fun key data => key ++ data
  fernetDecrypt := fun key token =>
    if token.take key.length = key then some (token.drop key.length)
    else none
  b64encode := fun x => x
  b64decode := fun x => some x

/-- Witness for C4 at a concrete salt, secret and password. -/
theorem encrypt_decrypt_roundtrip_witness :
    WalletManager.decrypt_data demoCrypto
      (WalletManager.encrypt_data demoCrypto (List.replicate 16 0)
        [1, 2, 3] [7, 7]) [7, 7] = some [1, 2, 3] := by
  refine encrypt_decrypt_roundtrip demoCrypto (List.replicate 16 0)
    [1, 2, 3] [7, 7] (by simp) (fun x => rfl) (fun k m => ?_)
  simp [demoCrypto, List.take_left, List.drop_left]

theorem validate_session_found (now : Int) (sessions : Sessions)
    (u : String) (rec : SessionRecord)
    (hfind : findSession sessions u = some rec) :
    validate_session now sessions u =
      match rec.last_activity with
      | some la =>
        if now - la > SESSION_TIMEOUT_HOURS * ONE_HOUR then
          (false, delSession sessions u)
        else
          (true, setSession sessions u { rec with last_activity := some now })
      | none =>
        (true, setSession sessions u { rec with last_activity := some now })
        := by
  unfold validate_session
  rw [hfind]

/-- C7: session expiry — when a session record exists, a `last_activity`
older than the 24-hour timeout makes `validate_session` return `false` and
delete the record, whatever the other fields hold; otherwise validation
returns `true` and refreshes `last_activity` to `now`. -/
theorem validate_session_expiry (now : Int) (sessions : Sessions)
    (u : String) (rec : SessionRecord)
    (hfind : findSession sessions u = some rec) :
    (∀ la, rec.last_activity = some la →
      now - la > SESSION_TIMEOUT_HOURS * ONE_HOUR →
      validate_session now sessions u = (false, delSession sessions u) ∧
      findSession (validate_session now sessions u).2 u = none) ∧
    ((rec.last_activity = none ∨
      ∃ la, rec.last_activity = some la ∧
        now - la ≤ SESSION_TIMEOUT_HOURS * ONE_HOUR) →
      (validate_session now sessions u).1 = true ∧
      findSession (validate_session now sessions u).2 u =
        some { rec with last_activity := some now }) := by
  have heq := validate_session_found now sessions u rec hfind
  constructor
  · intro la hla hexp
    rw [hla] at heq
    have heq2 : validate_session now sessions u =
        (if now - la > SESSION_TIMEOUT_HOURS * ONE_HOUR then
          (false, delSession sessions u)
        else
          (true, setSession sessions u
            { rec with last_activity := some now })) := heq
    rw [if_pos hexp] at heq2
    exact ⟨heq2, by rw [heq2]; exact findSession_delSession_self sessions u⟩
  · intro hfresh
    have hres : validate_session now sessions u =
        (true, setSession sessions u { rec with last_activity := some now }) := by
      rcases hfresh with hnone | ⟨la, hla, hle⟩
      · rw [hnone] at heq
        exact heq
      · rw [hla] at heq
        have heq2 : validate_session now sessions u =
            (if now - la > SESSION_TIMEOUT_HOURS * ONE_HOUR then
              (false, delSession sessions u)
            else
              (true, setSession sessions u
                { rec with last_activity := some now })) := heq
        rw [if_neg (not_lt.mpr hle)] at heq2
        exact heq2
    rw [hres]
    exact ⟨rfl, findSession_setSession_self sessions u _⟩

/-- Witness for C7: a record whose `last_activity` is 25 hours old is
expired and removed; a record 1 hour old survives with refreshed
activity. -/
theorem validate_session_expiry_witness :
    (validate_session 90000 [("1", { last_activity := some 0 })] "1" =
      (false, []) ∧
     findSession (validate_session 90000
       [("1", { last_activity := some 0 })] "1").2 "1" = none) ∧
    ((validate_session 3600 [("2", { last_activity := some 0 })] "2").1 =
      true ∧
     findSession (validate_session 3600
       [("2", { last_activity := some 0 })] "2").2 "2" =
       some { last_activity := some 3600 }) := by
  constructor
  · have h := validate_session_expiry 90000
      [("1", { last_activity := some 0 })] "1" { last_activity := some 0 }
      (by decide)
    have h1 := h.1 0 rfl (by decide)
    exact ⟨by rw [h1.1]; decide, h1.2⟩
  · have h := validate_session_expiry 3600
      [("2", { last_activity := some 0 })] "2" { last_activity := some 0 }
      (by decide)
    exact h.2 (Or.inr ⟨0, rfl, by decide⟩)

/-- C8: sliding-window rate limit — a transaction-type check succeeds
exactly when fewer than `MAX_TRANSACTIONS_PER_HOUR = 10` recorded
timestamps lie within the trailing hour; at the bound the operation is
refused and the store left untouched (not queued); below the bound the
stored list is pruned to the window and the current timestamp appended. -/
theorem rate_limit_sliding_window (now : Int) (sessions : Sessions)
    (u : String) :
    ((check_user_rate_limit now sessions u "transaction").1 = true ↔
      (∀ rec, findSession sessions u = some rec →
        (rec.recent_transactions.filter
          (fun t => t > now - ONE_HOUR)).length < MAX_TRANSACTIONS_PER_HOUR)) ∧
    (∀ rec, findSession sessions u = some rec →
      ((rec.recent_transactions.filter
          (fun t => t > now - ONE_HOUR)).length ≥ MAX_TRANSACTIONS_PER_HOUR →
        check_user_rate_limit now sessions u "transaction" =
          (false, sessions)) ∧
      ((rec.recent_transactions.filter
          (fun t => t > now - ONE_HOUR)).length < MAX_TRANSACTIONS_PER_HOUR →
        findSession (check_user_rate_limit now sessions u "transaction").2 u =
          some { rec with recent_transactions :=
            rec.recent_transactions.filter (fun t => t > now - ONE_HOUR) ++
              [now] })) := by
  cases hfind : findSession sessions u with
  | none =>
    have heq : check_user_rate_limit now sessions u "transaction" =
        (true, sessions) := by
      unfold check_user_rate_limit
      rw [hfind]
    refine ⟨⟨fun _ rec hrec => ?_, fun _ => by rw [heq]⟩, fun rec hrec => ?_⟩
    · exact Option.noConfusion hrec
    · exact Option.noConfusion hrec
  | some rec =>
    have heq : check_user_rate_limit now sessions u "transaction" =
        (if (rec.recent_transactions.filter
            (fun t => t > now - ONE_HOUR)).length ≥ MAX_TRANSACTIONS_PER_HOUR
         then (false, sessions)
         else (true, setSession sessions u
           { rec with recent_transactions :=
               rec.recent_transactions.filter (fun t => t > now - ONE_HOUR) ++
                 [now] })) := by
      unfold check_user_rate_limit
      rw [hfind]
      rfl
    by_cases hlen : (rec.recent_transactions.filter
        (fun t => t > now - ONE_HOUR)).length ≥ MAX_TRANSACTIONS_PER_HOUR
    · rw [if_pos hlen] at heq
      refine ⟨⟨fun habs => ?_, fun hall => ?_⟩, fun rec' hrec' => ?_⟩
      · rw [heq] at habs
        exact Bool.noConfusion habs
      · exact absurd (hall rec rfl) (not_lt.mpr hlen)
      · obtain rfl : rec = rec' := Option.some.inj hrec'
        exact ⟨fun _ => heq, fun hlt => absurd hlt (not_lt.mpr hlen)⟩
    · rw [if_neg hlen] at heq
      push_neg at hlen
      refine ⟨⟨fun _ rec' hrec' => ?_, fun _ => by rw [heq]⟩,
        fun rec' hrec' => ?_⟩
      · obtain rfl : rec = rec' := Option.some.inj hrec'
        exact hlen
      · obtain rfl : rec = rec' := Option.some.inj hrec'
        refine ⟨fun hge => absurd hge (not_le.mpr hlen), fun _ => ?_⟩
        rw [heq]
        exact findSession_setSession_self sessions u _

/-- Witness for C8: with ten fresh timestamps the 11th transaction in the
hour is refused and nothing is written; with nine it is allowed. -/
theorem rate_limit_sliding_window_witness :
    check_user_rate_limit 5000
      [("1", { recent_transactions :=
        [2000, 2100, 2200, 2300, 2400, 2500, 2600, 2700, 2800, 2900] })] "1"
      "transaction" =
      (false,
        [("1", { recent_transactions :=
          [2000, 2100, 2200, 2300, 2400, 2500, 2600, 2700, 2800, 2900] })]) := by
  have h := (rate_limit_sliding_window 5000
    [("1", { recent_transactions :=
      [2000, 2100, 2200, 2300, 2400, 2500, 2600, 2700, 2800, 2900] })] "1").2
    { recent_transactions :=
      [2000, 2100, 2200, 2300, 2400, 2500, 2600, 2700, 2800, 2900] }
    (by decide)
  exact h.1 (by decide)

/-- C9: corrupted-store recovery — when the persisted sessions data is
malformed, `load_sessions` moves it to a timestamped backup, returns the
empty mapping, and any session validated against that result is treated as
absent. -/
theorem corrupted_sessions_recovered (now : Int) (fs : SessionsFS)
    (raw : String) (h : fs.sessionsFile = some (.malformed raw)) :
    (load_sessions now fs).1 = [] ∧
    (load_sessions now fs).2.sessionsFile = none ∧
    (now, FileContent.malformed raw) ∈ (load_sessions now fs).2.backups ∧
    (∀ u, (validate_session now (load_sessions now fs).1 u).1 = false) := by
  unfold load_sessions
  rw [h]
  exact ⟨rfl, rfl, List.mem_cons_self _ _, fun u => rfl⟩

/-- Witness for C9 on a concrete corrupted file. -/
theorem corrupted_sessions_recovered_witness :
    (load_sessions 7 { sessionsFile := some (.malformed "oops") }).1 = [] ∧
    (load_sessions 7
      { sessionsFile := some (.malformed "oops") }).2.sessionsFile = none ∧
    (7, FileContent.malformed "oops") ∈
      (load_sessions 7 { sessionsFile := some (.malformed "oops") }).2.backups ∧
    (∀ u, (validate_session 7
      (load_sessions 7 { sessionsFile := some (.malformed "oops") }).1 u).1 =
      false) :=
  corrupted_sessions_recovered 7 { sessionsFile := some (.malformed "oops") }
    "oops" rfl

/-- C10: any action type other than `"transaction"` — in particular the
default `"general"` check run on every inbound message — is always allowed
and leaves the session store unchanged. -/
theorem check_user_rate_limit_general_allows (now : Int)
    (sessions : Sessions) (u action : String)
    (h : action ≠ "transaction") :
    check_user_rate_limit now sessions u action = (true, sessions) := by
  unfold check_user_rate_limit
  cases findSession sessions u with
  | none => rfl
  | some rec => simp [h]

/-- Witness for C10 at the default action type. -/
theorem check_user_rate_limit_general_allows_witness :
    check_user_rate_limit 0
      [("1", { recent_transactions := [0, 0, 0, 0, 0, 0, 0, 0, 0, 0, 0] })]
      "1" "general" =
      (true,
        [("1", { recent_transactions :=
          [0, 0, 0, 0, 0, 0, 0, 0, 0, 0, 0] })]) :=
  check_user_rate_limit_general_allows 0
    [("1", { recent_transactions := [0, 0, 0, 0, 0, 0, 0, 0, 0, 0, 0] })]
    "1" "general" (by decide)

theorem transaction_password_except_clears (a : Option Nat)
    (e : SubmitError) (l : List Txn) :
    (transaction_password_except UserData.clear a e l).user_data.pending_txn =
      none ∧
    (transaction_password_except UserData.clear a e l).user_data.pending_txns =
      none := by
  cases e <;> exact ⟨rfl, rfl⟩

theorem sign_submit_single_clears (env : Env) (pw : String)
    (a : Option Nat) (pt : Option Txn) (success : Txn → StepResult)
    (hs : ∀ t, (success t).user_data.pending_txn = none ∧
      (success t).user_data.pending_txns = none) :
    (sign_submit_single env pw a pt success).user_data.pending_txn = none ∧
    (sign_submit_single env pw a pt success).user_data.pending_txns =
      none := by
  unfold sign_submit_single
  repeat' split
  all_goals
    first
      | exact transaction_password_except_clears ..
      | exact hs _

theorem sign_submit_group_clears (env : Env) (pw : String)
    (a : Option Nat) (pts : Option (List Txn))
    (success : List Txn → StepResult)
    (hs : ∀ txns, (success txns).user_data.pending_txn = none ∧
      (success txns).user_data.pending_txns = none) :
    (sign_submit_group env pw a pts success).user_data.pending_txn = none ∧
    (sign_submit_group env pw a pts success).user_data.pending_txns =
      none := by
  unfold sign_submit_group
  repeat' split
  all_goals
    first
      | exact transaction_password_except_clears ..
      | exact hs _

theorem handle_transaction_password_clears_txn (env : Env) (ud : UserData)
    (pw : String) :
    (handle_transaction_password env ud pw).user_data.pending_txn = none := by
  unfold handle_transaction_password
  dsimp only
  repeat' split
  all_goals
    first
      | rfl
      | exact (transaction_password_except_clears ..).1
      | exact (sign_submit_single_clears _ _ _ _ _
          (fun t => ⟨rfl, rfl⟩)).1
      | exact (sign_submit_group_clears _ _ _ _ _
          (fun txns => ⟨rfl, rfl⟩)).1

theorem handle_transaction_password_clears_txns (env : Env) (ud : UserData)
    (pw : String) :
    (handle_transaction_password env ud pw).user_data.pending_txns =
      none := by
  unfold handle_transaction_password
  dsimp only
  repeat' split
  all_goals
    first
      | rfl
      | exact (transaction_password_except_clears ..).2
      | exact (sign_submit_single_clears _ _ _ _ _
          (fun t => ⟨rfl, rfl⟩)).2
      | exact (sign_submit_group_clears _ _ _ _ _
          (fun txns => ⟨rfl, rfl⟩)).2

theorem handle_transaction_password_clears (env : Env) (ud : UserData)
    (pw : String) :
    (handle_transaction_password env ud pw).user_data.pending_txn = none ∧
    (handle_transaction_password env ud pw).user_data.pending_txns = none :=
  ⟨handle_transaction_password_clears_txn env ud pw,
   handle_transaction_password_clears_txns env ud pw⟩

/-- C1: at-most-once signing — with a staged payment, a valid session
record, a correct password and a clean submission, the resume step signs
and submits the payload exactly once (`submitted = [t]`); the user-facing
reply is the incorrect-password message because the source's success
`reply_text` (telegram_bot.py 956-961) raises `TypeError` after
submission, but the pending operation is consumed: an immediately
following resume call replies `noPendingTransaction` and signs and submits
nothing, and every terminal path of the handler leaves the pending
operation cleared. -/
theorem at_most_once_signing (env : Env) (ud : UserData) (t : Txn)
    (pw : String) (hpend : ud.pending_txn = some t)
    (htype : ud.transaction_type = some "send")
    (hsess : env.session_valid = true)
    (hpw : pw = env.correct_password) (hsub : env.submit_error = none) :
    (handle_transaction_password env ud pw).submitted = [t] ∧
    (handle_transaction_password env ud pw).reply = .incorrectPassword 2 ∧
    (handle_transaction_password env
      (handle_transaction_password env ud pw).user_data pw).reply =
      .noPendingTransaction ∧
    (handle_transaction_password env
      (handle_transaction_password env ud pw).user_data pw).submitted = [] ∧
    (∀ (e : Env) (u : UserData) (p : String),
      (handle_transaction_password e u p).user_data.pending_txn = none ∧
      (handle_transaction_password e u p).user_data.pending_txns = none) := by
  have h1 : handle_transaction_password env ud pw =
      { user_data := { failed_attempts := 1 },
        reply := .incorrectPassword 2, submitted := [t] } := by
    unfold handle_transaction_password
    rw [hpend, htype]
    simp [extracted_asset_id, truthyOptNat, sign_submit_single,
      transaction_password_except, UserData.clear, MAX_PASSWORD_ATTEMPTS,
      hpend, hsess, hsub, hpw]
  rw [h1]
  exact ⟨rfl, rfl, rfl, rfl,
    fun e u p => handle_transaction_password_clears e u p⟩

/-- A staged demo payment used by the concrete theorems. -/
def demoTxn : Txn := { sender := "S", receiver := "R", amt := 5000000 }

/-- Demo environment: the stored secret decrypts under `"right"`. -/
def demoEnv : Env := { correct_password := "right" }

/-- `context.user_data` right after `handle_send_transaction` staged a
payment and requested the password. -/
def stagedSend : UserData :=
  { state := some "transaction_password", pending_txn := some demoTxn,
    transaction_type := some "send" }

/-- Witness for C1: a concrete staged payment signed and submitted once
with the correct password; the second call finds nothing pending. -/
theorem at_most_once_signing_witness :
    (handle_transaction_password demoEnv stagedSend "right").submitted =
      [demoTxn] ∧
    (handle_transaction_password demoEnv stagedSend "right").reply =
      .incorrectPassword 2 ∧
    (handle_transaction_password demoEnv
      (handle_transaction_password demoEnv stagedSend "right").user_data
      "right").reply = .noPendingTransaction ∧
    (handle_transaction_password demoEnv
      (handle_transaction_password demoEnv stagedSend "right").user_data
      "right").submitted = [] ∧
    (∀ (e : Env) (u : UserData) (p : String),
      (handle_transaction_password e u p).user_data.pending_txn = none ∧
      (handle_transaction_password e u p).user_data.pending_txns = none) :=
  at_most_once_signing demoEnv stagedSend demoTxn "right" rfl rfl rfl rfl
    rfl

/-- C2: the source intends a lockout at `MAX_PASSWORD_ATTEMPTS = 3` — the
gate in `handle_conversation_state` does reject and clear once
`failed_attempts` reaches 3 (last conjunct) — but the trace of three
consecutive wrong passwords during one staged approval never reaches it:
`handle_transaction_password` clears `context.user_data` before signing, so
the first wrong password already wiped the conversation state and the
counter base; the counter ends at 1, the later messages fall through to
intent parsing, and no lockout occurs. -/
theorem three_wrong_passwords_do_not_lock_out :
    (handle_message demoEnv stagedSend "wrongpw").reply =
      .incorrectPassword 2 ∧
    (handle_message demoEnv stagedSend "wrongpw").user_data.failed_attempts =
      1 ∧
    (handle_message demoEnv stagedSend "wrongpw").user_data.state = none ∧
    (handle_message demoEnv
      (handle_message demoEnv stagedSend "wrongpw").user_data
      "wrongpw").reply = .notUnderstood ∧
    (handle_message demoEnv
      (handle_message demoEnv
        (handle_message demoEnv stagedSend "wrongpw").user_data
        "wrongpw").user_data "wrongpw").reply = .notUnderstood ∧
    (handle_message demoEnv
      (handle_message demoEnv
        (handle_message demoEnv stagedSend "wrongpw").user_data
        "wrongpw").user_data "wrongpw").user_data.failed_attempts = 1 ∧
    MAX_PASSWORD_ATTEMPTS = 3 ∧
    (handle_conversation_state demoEnv
      { stagedSend with failed_attempts := 3 } "x").reply =
      .tooManyAttemptsGate := by
  decide

/-- C3: a wrong-password resume attempt does reply `incorrectPassword`
with the remaining-attempts count, but — contrary to the claim — it does
not keep the staged data: `context.user_data` was cleared before signing,
so the pending operation and the conversation state are gone and the next
attempt, even with the correct password, finds nothing pending. -/
theorem wrong_password_discards_pending_operation :
    (handle_transaction_password demoEnv stagedSend "wrongpw").reply =
      .incorrectPassword 2 ∧
    (handle_transaction_password demoEnv stagedSend
      "wrongpw").user_data.pending_txn = none ∧
    (handle_transaction_password demoEnv stagedSend
      "wrongpw").user_data.state = none ∧
    (handle_transaction_password demoEnv stagedSend
      "wrongpw").user_data.failed_attempts = 1 ∧
    (handle_transaction_password demoEnv
      (handle_transaction_password demoEnv stagedSend "wrongpw").user_data
      "right").reply = .noPendingTransaction := by
  decide

/-- The closing zero-amount self-transfer built by `opt_out_of_asset`. -/
def optOutTxn (env : Env) (a : Nat) : Txn :=
  { sender := env.address, receiver := env.address, amt := 0,
    index := some a, close_assets_to := some env.address }

/-- Demo environment for opt-out: the caller holds 7 units of asset 5. -/
def optOutEnv : Env :=
  { correct_password := "right",
    holdings := fun a => if a = 5 then some 7 else none }

/-- C5 counterexample: with a nonzero holding of asset 5, staging the
opt-out is not rejected — `handle_opt_out` stages the closing transfer and
requests the password; no balance check runs before the password prompt. -/
theorem optout_nonzero_stages_and_requests_password :
    (handle_opt_out optOutEnv UserData.clear (some 5)).reply =
      .passwordRequested "opt_out" ∧
    (handle_opt_out optOutEnv UserData.clear
      (some 5)).user_data.pending_txn = some (optOutTxn optOutEnv 5) ∧
    (handle_opt_out optOutEnv UserData.clear (some 5)).submitted = [] := by
  decide

/-- C5 (amended): for a nonzero holding the opt-out is rejected with the
nonzero-balance reason only in the password-resume step — after the
password has been requested and entered — and before anything is signed or
submitted. -/
theorem optout_nonzero_rejected_after_password (env : Env) (a amount : Nat)
    (pw : String) (hsess : env.session_valid = true)
    (hstore : env.wallet_store_ok = true)
    (hhold : env.holdings a = some amount) (hpos : 0 < amount) :
    (handle_opt_out env UserData.clear (some a)).reply =
      .passwordRequested "opt_out" ∧
    (handle_opt_out env UserData.clear (some a)).submitted = [] ∧
    (handle_transaction_password env
      (handle_opt_out env UserData.clear (some a)).user_data pw).reply =
      .optOutNonzeroBalance amount ∧
    (handle_transaction_password env
      (handle_opt_out env UserData.clear (some a)).user_data pw).submitted =
      [] := by
  have hstage : handle_opt_out env UserData.clear (some a) =
      { user_data :=
          { pending_txn := some (optOutTxn env a),
            state := some "transaction_password",
            transaction_type := some "opt_out" },
        reply := .passwordRequested "opt_out" } := by
    unfold handle_opt_out
    rw [hsess, hstore]
    simp [optOutTxn, UserData.clear]
  rw [hstage]
  refine ⟨rfl, rfl, ?_, ?_⟩ <;>
  · unfold handle_transaction_password
    simp [UserData.clear, extracted_asset_id, truthyOptNat, optOutTxn,
      hsess, hhold, hpos]

/-- Witness for C5's amended statement at the concrete opt-out demo. -/
theorem optout_nonzero_rejected_after_password_witness :
    (handle_opt_out optOutEnv UserData.clear (some 5)).reply =
      .passwordRequested "opt_out" ∧
    (handle_opt_out optOutEnv UserData.clear (some 5)).submitted = [] ∧
    (handle_transaction_password optOutEnv
      (handle_opt_out optOutEnv UserData.clear (some 5)).user_data
      "right").reply = .optOutNonzeroBalance 7 ∧
    (handle_transaction_password optOutEnv
      (handle_opt_out optOutEnv UserData.clear (some 5)).user_data
      "right").submitted = [] :=
  optout_nonzero_rejected_after_password optOutEnv 5 7 "right" rfl rfl rfl
    (by decide)

theorem microalgos_sum_exact (rs : List Recipient)
    (hexact : ∀ r ∈ rs, ∃ k : ℤ, r.amount * 1000000 = (k : ℚ)) :
    (((rs.map (fun r => microalgos r.amount)).sum : ℤ) : ℚ) =
      (rs.map Recipient.amount).sum * 1000000 := by
  induction rs with
  | nil => simp
  | cons r rs ih =>
    obtain ⟨k, hk⟩ := hexact r (List.mem_cons_self _ _)
    have hr : microalgos r.amount = k := microalgos_exact r.amount k hk
    have ih2 := ih (fun x hx => hexact x (List.mem_cons_of_mem _ hx))
    simp only [List.map_cons, List.sum_cons, Int.cast_add, hr]
    rw [add_mul, ← hk, ih2]

/-- C6: staging a multi-recipient transfer (length at least 2, all
recipients valid, balance sufficient) yields a single
`awaiting_approval` payload set in which every unsigned payment carries
the same group identifier, the per-recipient microALGO amounts are
`int(amount * 1_000_000)`, and — when every amount is an exact multiple of
one microALGO — their sum equals the requested total in the smallest
unit. -/
theorem multi_transfer_grouped_and_exact (sdk_valid : String → Bool)
    (balance : ℚ) (gid : Nat) (sender : String)
    (recipients : List Recipient) (hlen : 2 ≤ recipients.length)
    (hval : validateRecipients sdk_valid 0 recipients = none)
    (hbal : (recipients.map Recipient.amount).sum ≤ balance)
    (hexact : ∀ r ∈ recipients, ∃ k : ℤ, r.amount * 1000000 = (k : ℚ)) :
    ∃ txns,
      build_and_send_multi_transaction sdk_valid balance gid sender
        recipients =
        .awaiting_approval txns recipients
          ((recipients.map Recipient.amount).sum) ∧
      txns.length = recipients.length ∧
      (∀ t ∈ txns, t.group = some gid) ∧
      txns.map Txn.amt = recipients.map (fun r => microalgos r.amount) ∧
      (((txns.map Txn.amt).sum : ℤ) : ℚ) =
        (recipients.map Recipient.amount).sum * 1000000 := by
  refine ⟨assign_group_id gid (recipients.map (fun r =>
    ({ sender := sender, receiver := r.address,
       amt := microalgos r.amount } : Txn))), ?_, ?_, ?_, ?_, ?_⟩
  · unfold build_and_send_multi_transaction
    rw [if_neg (not_lt.mpr hlen), hval]
    rw [if_neg (not_lt.mpr hbal)]
  · simp [assign_group_id]
  · intro t ht
    simp only [assign_group_id, List.mem_map] at ht
    obtain ⟨t', _, rfl⟩ := ht
    rfl
  · simp only [assign_group_id, List.map_map]
    rfl
  · have hm : (assign_group_id gid (recipients.map (fun r =>
        ({ sender := sender, receiver := r.address,
           amt := microalgos r.amount } : Txn)))).map Txn.amt =
        recipients.map (fun r => microalgos r.amount) := by
      simp only [assign_group_id, List.map_map]
      rfl
    rw [hm]
    exact microalgos_sum_exact recipients hexact

/-- The repository's own example split of 10 ALGO across three
recipients (3.33 / 3.33 / 3.34). -/
def demoRecipients : List Recipient :=
  [⟨"A", 333 / 100⟩, ⟨"B", 333 / 100⟩, ⟨"C", 167 / 50⟩]

/-- Witness for C6: the 3.33/3.33/3.34 split of 10 ALGO stages three
grouped payments of 3330000, 3330000 and 3340000 microALGO, which sum to
exactly 10000000. -/
theorem multi_transfer_grouped_and_exact_witness :
    (∃ txns,
      build_and_send_multi_transaction (fun _ => true) 10 42 "S"
        demoRecipients =
        .awaiting_approval txns demoRecipients
          ((demoRecipients.map Recipient.amount).sum) ∧
      txns.length = demoRecipients.length ∧
      (∀ t ∈ txns, t.group = some 42) ∧
      txns.map Txn.amt = demoRecipients.map (fun r => microalgos r.amount) ∧
      (((txns.map Txn.amt).sum : ℤ) : ℚ) =
        (demoRecipients.map Recipient.amount).sum * 1000000) ∧
    (demoRecipients.map Recipient.amount).sum = 10 ∧
    demoRecipients.map (fun r => microalgos r.amount) =
      [3330000, 3330000, 3340000] :=
  ⟨multi_transfer_grouped_and_exact (fun _ => true) 10 42 "S"
      demoRecipients (by decide)
      (by norm_num [validateRecipients, demoRecipients])
      (by norm_num [demoRecipients])
      (by
        intro r hr
        simp only [demoRecipients, List.mem_cons, List.not_mem_nil,
          or_false] at hr
        rcases hr with rfl | rfl | rfl
        · exact ⟨3330000, by norm_num⟩
        · exact ⟨3330000, by norm_num⟩
        · exact ⟨3340000, by norm_num⟩),
    by norm_num [demoRecipients],
    by
      simp only [demoRecipients, List.map_cons, List.map_nil]
      rw [microalgos_exact (333 / 100) 3330000 (by norm_num),
          microalgos_exact (167 / 50) 3340000 (by norm_num)]⟩

end AlgoIntent
